import Mathlib

/-!
Verification of the VPP-Demo repository (SDL + Vulkan triangle demo).

The development shallowly embeds the two snapshots of the application
(`Sources/Application.cpp`, `Sources/IApplication.cpp`, and the earlier
`Source/Application.cpp`).  External Vulkan / SDL calls are modelled by an
explicit per-frame environment (`App.FrameEnv`) carrying the results the
driver returns (acquire / submit / present results, drawable size, quit
events).  State held in `Application` members is carried in `App.AppState`;
calls that create or destroy API objects are recorded as events in a trace
so that ordering and call-count properties can be stated.  C++ exceptions
are modelled with `Except String`.
-/

namespace App

/-- The subset of `VkResult` values distinguished by the code: `VK_SUCCESS`,
`VK_ERROR_OUT_OF_DATE_KHR`, `VK_SUBOPTIMAL_KHR`, and all remaining values
collapsed into one constructor (the code only compares against the first
three). -/
inductive VkResult where
  | success
  | errorOutOfDate
  | suboptimal
  | otherError
deriving DecidableEq, Repr

/-- `UINT32_MAX`, the sentinel used by the code for "no value". -/
def UINT32_MAX : Nat := 4294967295

/-- A vertex as in the anonymous-namespace `struct Vertex` of
`Sources/Application.cpp`: a `glm::vec2` position and a `glm::vec3` color.
The float components are modelled as rationals (all constants in the source
are exactly representable). -/
structure Vertex where
  vertex : Rat × Rat
  color : Rat × Rat × Rat
deriving DecidableEq, Repr

/-- The fixed vertex list built in `Application::InitVulkan`. -/
def initVertices : List Vertex :=
  [⟨(0, -3/2), (1, 0, 0)⟩,
   ⟨(1/2, 1/2), (0, 1, 0)⟩,
   ⟨(-1/2, 1/2), (0, 0, 1)⟩]

/-- Generation counters for the long-lived Vulkan objects held in
`Application` members: each `vkCreate*` bumps the matching counter, so a
counter that is unchanged across an operation means the operation did not
replace that object. -/
structure Resources where
  instanceGen : Nat
  surfaceGen : Nat
  gpuGen : Nat
  deviceGen : Nat
  queuesGen : Nat
  commandPoolGen : Nat
  vertexBufferGen : Nat
  syncGen : Nat
  imageViewsGen : Nat
  renderPassGen : Nat
  simplePipelineGen : Nat
  vertexPipelineGen : Nat
  framebuffersGen : Nat
  commandBuffersGen : Nat
deriving DecidableEq, Repr

/-- The `Application` member state relevant to the claims.  `swapchain` is
the current `m_Swapchain` handle (`0` models `VK_NULL_HANDLE`); `nextHandle`
is a fresh-handle supply for `vkCreateSwapchainKHR`. -/
structure AppState where
  running : Bool
  windowResized : Bool
  curSyncFrame : Nat
  syncObjCount : Nat
  frameIndex : Nat
  swapchain : Nat
  nextHandle : Nat
  res : Resources
  vertexData : List Vertex
deriving DecidableEq, Repr

/-- Results the external world returns during one iteration of the main
loop: the polled SDL quit event, `SDL_Vulkan_GetDrawableSize` output, and
the `VkResult`s of `vkAcquireNextImageKHR` (with the image index the driver
writes), `vkQueueSubmit` and `vkQueuePresentKHR`. -/
structure FrameEnv where
  quitEvent : Bool
  drawableWidth : Int
  drawableHeight : Int
  acquireResult : VkResult
  acquiredIndex : Nat
  submitResult : VkResult
  presentResult : VkResult
deriving DecidableEq, Repr

/-- Events recording API calls made by the application, used to state
ordering and call-count properties. -/
inductive Ev where
  | initProperty
  | initWindow
  | createInstance
  | createSurface
  | pickPhysicalDevice
  | createDevice
  | createCommandPool
  | createVertexBuffer (stride count : Nat)
  | createSwapchainImpl (oldSwapchain : Nat)
  | destroySwapchain (handle : Nat)
  | createImageViews
  | createSimpleRenderPass
  | createSimplePipeline
  | createVertexPipeline
  | createFramebuffers
  | createCommandBuffers
  | cleanSwapchainResources
  | createSyncObjects (frameNum : Nat)
  | initImGui
  | recreateSwapchain
  | deviceWaitIdle
  | fenceWait
  | fenceReset
  | acquire (syncFrame : Nat)
  | resizeFlagSet
  | recordCommand (imageIndex : Nat)
  | queueSubmit
  | queuePresent
  | cleanup
deriving DecidableEq, Repr

/-- `Application::FrameUpdate`: wait for and reset the in-flight fence, call
`vkAcquireNextImageKHR` into `m_FrameIndex`, set `m_WindowResized` on
`VK_ERROR_OUT_OF_DATE_KHR` / `VK_SUBOPTIMAL_KHR`, and return
`result == VK_SUCCESS`.  Per the Vulkan contract the driver writes the image
index on the success codes `VK_SUCCESS` and `VK_SUBOPTIMAL_KHR` and leaves
it untouched on error codes. -/
def FrameUpdate (s : AppState) (env : FrameEnv) : AppState × Bool × List Ev :=
  let tr : List Ev := [Ev.fenceWait, Ev.fenceReset, Ev.acquire s.curSyncFrame]
  let s1 :=
    if env.acquireResult = VkResult.success ∨ env.acquireResult = VkResult.suboptimal then
      { s with frameIndex := env.acquiredIndex }
    else s
  if env.acquireResult = VkResult.errorOutOfDate ∨ env.acquireResult = VkResult.suboptimal then
    ({ s1 with windowResized := true },
     decide (env.acquireResult = VkResult.success), tr ++ [Ev.resizeFlagSet])
  else
    (s1, decide (env.acquireResult = VkResult.success), tr)

/-- `Application::FramePresent`: reset the in-flight fence, submit the
command buffer (throwing on failure), present (setting the resize flag and
returning early on `VK_ERROR_OUT_OF_DATE_KHR` / `VK_SUBOPTIMAL_KHR`,
throwing on any other failure), then advance
`m_CurSyncFrame = (m_CurSyncFrame + 1) % m_SyncObjCount`. -/
def FramePresent (s : AppState) (env : FrameEnv) : Except String AppState × List Ev :=
  let tr : List Ev := [Ev.fenceReset, Ev.queueSubmit]
  if env.submitResult ≠ VkResult.success then
    (Except.error "failed to submit draw command buffer!", tr)
  else
    let tr := tr ++ [Ev.queuePresent]
    if env.presentResult = VkResult.errorOutOfDate ∨ env.presentResult = VkResult.suboptimal then
      (Except.ok { s with windowResized := true }, tr ++ [Ev.resizeFlagSet])
    else if env.presentResult ≠ VkResult.success then
      (Except.error "failed to present swap chain image!", tr)
    else
      (Except.ok { s with curSyncFrame := (s.curSyncFrame + 1) % s.syncObjCount }, tr)

/-- `Application::CreateInstance` (object creation recorded as a generation
bump plus an event). -/
def CreateInstance (s : AppState) : AppState × List Ev :=
  ({ s with res := { s.res with instanceGen := s.res.instanceGen + 1 } }, [Ev.createInstance])

/-- `Application::CreateSurface`. -/
def CreateSurface (s : AppState) : AppState × List Ev :=
  ({ s with res := { s.res with surfaceGen := s.res.surfaceGen + 1 } }, [Ev.createSurface])

/-- `Application::PickPhysicalDevice` as a state transformer (sets `m_Gpu`);
the selection logic itself is modelled separately in the `Pick` namespace. -/
def PickPhysicalDevice (s : AppState) : AppState × List Ev :=
  ({ s with res := { s.res with gpuGen := s.res.gpuGen + 1 } }, [Ev.pickPhysicalDevice])

/-- `Application::CreateDevice` (logical device and both queues). -/
def CreateDevice (s : AppState) : AppState × List Ev :=
  ({ s with res :=
      { s.res with deviceGen := s.res.deviceGen + 1, queuesGen := s.res.queuesGen + 1 } },
   [Ev.createDevice])

/-- `Application::CreateCommandPool`. -/
def CreateCommandPool (s : AppState) : AppState × List Ev :=
  ({ s with res := { s.res with commandPoolGen := s.res.commandPoolGen + 1 } },
   [Ev.createCommandPool])

/-- `Application::CreateVertexBuffer(stride, count, data)`: creates the
buffer, allocates and binds memory, and copies `data` into it. -/
def CreateVertexBuffer (stride count : Nat) (data : List Vertex) (s : AppState) :
    AppState × List Ev :=
  ({ s with
      vertexData := data,
      res := { s.res with vertexBufferGen := s.res.vertexBufferGen + 1 } },
   [Ev.createVertexBuffer stride count])

/-- `Application::CreateSwapchainImpl(oldSwapchain)`: creates a fresh
swapchain handle with `createInfo.oldSwapchain = oldSwapchain`. -/
def CreateSwapchainImpl (oldSwapchain : Nat) (s : AppState) : AppState × List Ev :=
  ({ s with swapchain := s.nextHandle, nextHandle := s.nextHandle + 1 },
   [Ev.createSwapchainImpl oldSwapchain])

/-- `Application::CreateImageViews`. -/
def CreateImageViews (s : AppState) : AppState × List Ev :=
  ({ s with res := { s.res with imageViewsGen := s.res.imageViewsGen + 1 } },
   [Ev.createImageViews])

/-- `Application::CreateSimpleRenderPass`. -/
def CreateSimpleRenderPass (s : AppState) : AppState × List Ev :=
  ({ s with res := { s.res with renderPassGen := s.res.renderPassGen + 1 } },
   [Ev.createSimpleRenderPass])

/-- `Application::CreateSimplePipeline` at the resource level (its shader
module lifecycle is modelled in the `Shaders` namespace). -/
def CreateSimplePipeline (s : AppState) : AppState × List Ev :=
  ({ s with res := { s.res with simplePipelineGen := s.res.simplePipelineGen + 1 } },
   [Ev.createSimplePipeline])

/-- `Application::CreateVertexPipeline` at the resource level. -/
def CreateVertexPipeline (s : AppState) : AppState × List Ev :=
  ({ s with res := { s.res with vertexPipelineGen := s.res.vertexPipelineGen + 1 } },
   [Ev.createVertexPipeline])

/-- `Application::CreateFramebuffers`. -/
def CreateFramebuffers (s : AppState) : AppState × List Ev :=
  ({ s with res := { s.res with framebuffersGen := s.res.framebuffersGen + 1 } },
   [Ev.createFramebuffers])

/-- `Application::CreateCommandBuffers`. -/
def CreateCommandBuffers (s : AppState) : AppState × List Ev :=
  ({ s with res := { s.res with commandBuffersGen := s.res.commandBuffersGen + 1 } },
   [Ev.createCommandBuffers])

/-- `Application::CreateSyncObjects(frameNum)`: sets `m_SyncObjCount` and
creates `frameNum` fences and semaphore pairs. -/
def CreateSyncObjects (frameNum : Nat) (s : AppState) : AppState × List Ev :=
  ({ s with syncObjCount := frameNum }, [Ev.createSyncObjects frameNum])

/-- `Application::CleanSwapchainResources`: destroys framebuffers, command
buffers, both pipelines and layouts, the render pass and the image views
(destructions only; the matching generation bumps happen at re-creation). -/
def CleanSwapchainResources (s : AppState) : AppState × List Ev :=
  (s, [Ev.cleanSwapchainResources])

/-- `Application::RecreateSwapchain`: wait for the device, destroy the
swapchain-dependent resources, create the new swapchain passing the old one
as `oldSwapchain`, destroy the old swapchain, then re-create image views,
render pass, both pipelines, framebuffers and command buffers. -/
def RecreateSwapchain (s : AppState) : AppState × List Ev :=
  let old := s.swapchain
  let r1 := CleanSwapchainResources s
  let r2 := CreateSwapchainImpl old r1.1
  let r3 := CreateImageViews r2.1
  let r4 := CreateSimpleRenderPass r3.1
  let r5 := CreateSimplePipeline r4.1
  let r6 := CreateVertexPipeline r5.1
  let r7 := CreateFramebuffers r6.1
  let r8 := CreateCommandBuffers r7.1
  (r8.1,
   [Ev.deviceWaitIdle] ++ r1.2 ++ r2.2 ++ [Ev.destroySwapchain old]
     ++ r3.2 ++ r4.2 ++ r5.2 ++ r6.2 ++ r7.2 ++ r8.2)

/-- `Application::CreateSwapchain`: initial swapchain creation with
`oldSwapchain = VK_NULL_HANDLE`, followed by the same dependent creations. -/
def CreateSwapchain (s : AppState) : AppState × List Ev :=
  let r1 := CreateSwapchainImpl 0 s
  let r2 := CreateImageViews r1.1
  let r3 := CreateSimpleRenderPass r2.1
  let r4 := CreateSimplePipeline r3.1
  let r5 := CreateVertexPipeline r4.1
  let r6 := CreateFramebuffers r5.1
  let r7 := CreateCommandBuffers r6.1
  (r7.1, r1.2 ++ r2.2 ++ r3.2 ++ r4.2 ++ r5.2 ++ r6.2 ++ r7.2)

/-- `Application::InitVulkan`: instance, surface, physical and logical
device, command pool, the hardcoded 3-vertex buffer
(`sizeof(Vertex) = 20`), the swapchain with its dependent resources, and the
sync-object ring of size 2. -/
def InitVulkan (s : AppState) : AppState × List Ev :=
  let r1 := CreateInstance s
  let r2 := CreateSurface r1.1
  let r3 := PickPhysicalDevice r2.1
  let r4 := CreateDevice r3.1
  let r5 := CreateCommandPool r4.1
  let r6 := CreateVertexBuffer 20 3 initVertices r5.1
  let r7 := CreateSwapchain r6.1
  let r8 := CreateSyncObjects 2 r7.1
  (r8.1, r1.2 ++ r2.2 ++ r3.2 ++ r4.2 ++ r5.2 ++ r6.2 ++ r7.2 ++ r8.2)

/-- The drawable-size guard at the top of the loop body:
`actualWidth <= 0 || actualHeight <= 0` breaks out of the frame. -/
def sizeBad (env : FrameEnv) : Bool :=
  env.drawableWidth ≤ 0 || env.drawableHeight ≤ 0

/-- The `if (m_WindowResized) { RecreateSwapchain(); m_WindowResized = false; }`
step of the loop body. -/
def resizeStep (s : AppState) : AppState × List Ev :=
  if s.windowResized then
    let r := RecreateSwapchain s
    ({ r.1 with windowResized := false }, Ev.recreateSwapchain :: r.2)
  else (s, [])

/-- One iteration of the `while (m_Running)` body of `Application::MainLoop`:
poll events (`SDL_QUIT` calls `Exit()`), check the drawable size, handle the
resize flag, then `FrameUpdate`; when it returns `true`,
`RecordCommand(m_FrameIndex)` and `FramePresent` follow.  A thrown C++
exception is an `Except.error` (it propagates out of `MainLoop`). -/
def loopIter (s : AppState) (env : FrameEnv) : Except String AppState × List Ev :=
  let s0 := if env.quitEvent then { s with running := false } else s
  if sizeBad env then (Except.ok s0, [])
  else
    let r1 := resizeStep s0
    let r2 := FrameUpdate r1.1 env
    if r2.2.1 = false then (Except.ok r2.1, r1.2 ++ r2.2.2)
    else
      let r4 := FramePresent r2.1 env
      (r4.1, r1.2 ++ r2.2.2 ++ [Ev.recordCommand r2.1.frameIndex] ++ r4.2)

/-- Result of running the main loop: final state, every state entered
(including the starting one), and the concatenated event trace. -/
structure RunResult where
  final : AppState
  states : List AppState
  trace : List Ev
deriving Repr

/-- The `while (m_Running)` loop of `Application::MainLoop`, driven by a
list of per-frame environments (the list plays the role of fuel: the run
also stops when it is exhausted, which can only drop suffixes of the real
behaviour).  A thrown exception stops the loop. -/
def run (s : AppState) : List FrameEnv → RunResult
  | [] => ⟨s, [s], []⟩
  | env :: rest =>
    if s.running then
      match loopIter s env with
      | (Except.ok s1, tr) =>
        let r := run s1 rest
        ⟨r.final, s :: r.states, tr ++ r.trace⟩
      | (Except.error _, tr) => ⟨s, [s], tr⟩
    else ⟨s, [s], []⟩

/-- The member-initializer state of `Application` before `Run` starts. -/
def initState : AppState :=
  { running := false
    windowResized := false
    curSyncFrame := 0
    syncObjCount := 0
    frameIndex := UINT32_MAX
    swapchain := 0
    nextHandle := 1
    res := ⟨0, 0, 0, 0, 0, 0, 0, 0, 0, 0, 0, 0, 0, 0⟩
    vertexData := [] }

/-- The state in which `MainLoop` starts iterating: everything `InitVulkan`
set up, with `m_Running = true`. -/
def mainLoopState : AppState :=
  { (InitVulkan initState).1 with running := true }

/-- `Application::Run` of `Sources/Application.cpp`: `InitProperty`,
`InitWindow`, `InitVulkan`, `InitImGui`, `MainLoop` (the loop followed by
`vkDeviceWaitIdle`), `Cleanup`. -/
def Run (envs : List FrameEnv) : AppState × List Ev :=
  let r := run mainLoopState envs
  (r.final,
   [Ev.initProperty, Ev.initWindow] ++ (InitVulkan initState).2 ++ [Ev.initImGui]
     ++ r.trace ++ [Ev.deviceWaitIdle, Ev.cleanup])

/-- The single buffer object the application owns (`m_VertexBuffer`). -/
inductive BufId where
  | vertexBuffer
deriving DecidableEq, Repr

/-- Commands recorded into a command buffer by `Application::RecordCommand`. -/
inductive Cmd where
  | resetCommandBuffer
  | beginCommandBuffer
  | bindVertexBuffers (firstBinding bindingCount : Nat) (buffers : List BufId) (offsets : List Nat)
  | beginRenderPass (imageIndex : Nat)
  | bindPipeline
  | draw (vertexCount instanceCount firstVertex firstInstance : Nat)
  | imguiRenderDrawData
  | endRenderPass
  | endCommandBuffer
deriving DecidableEq, Repr

/-- `Application::RecordCommand(imageIndex)`: reset and begin the command
buffer, bind `m_VertexBuffer`, begin the render pass on the framebuffer of
`imageIndex`, bind `m_VertexPipeline`, issue `vkCmdDraw(cb, 3, 1, 0, 0)`,
render the ImGui draw data, and end. -/
def RecordCommand (imageIndex : Nat) : List Cmd :=
  [Cmd.resetCommandBuffer,
   Cmd.beginCommandBuffer,
   Cmd.bindVertexBuffers 0 1 [BufId.vertexBuffer] [0],
   Cmd.beginRenderPass imageIndex,
   Cmd.bindPipeline,
   Cmd.draw 3 1 0 0,
   Cmd.imguiRenderDrawData,
   Cmd.endRenderPass,
   Cmd.endCommandBuffer]

end App

namespace Shaders

/-- Which of the four `CreateShaderModule` / `vkCreatePipelineLayout` /
`vkCreateGraphicsPipelines` calls inside a pipeline-creation function
succeed; a `false` models the corresponding C++ `throw`. -/
structure PipelineEnv where
  vertShaderOk : Bool
  fragShaderOk : Bool
  layoutOk : Bool
  pipelineOk : Bool
deriving DecidableEq, Repr

/-- The four shader modules created during graphics pipeline creation. -/
inductive ShaderId where
  | simpleVert
  | simpleFrag
  | vertexVert
  | vertexFrag
deriving DecidableEq, Repr

/-- Shader-module lifecycle events: `vkCreateShaderModule` and
`vkDestroyShaderModule`. -/
inductive ShEv where
  | created (m : ShaderId)
  | destroyed (m : ShaderId)
deriving DecidableEq, Repr

/-- `Application::CreateSimplePipeline`: both shader modules are held in
`ShaderModuleWrapper` RAII objects, so the C++ scope rules destroy every
fully constructed wrapper (in reverse order) both on normal exit and when a
later call throws. -/
def CreateSimplePipeline (env : PipelineEnv) : Except String Unit × List ShEv :=
  if env.vertShaderOk = false then
    (Except.error "failed to create shader module!", [])
  else if env.fragShaderOk = false then
    (Except.error "failed to create shader module!",
     [ShEv.created ShaderId.simpleVert, ShEv.destroyed ShaderId.simpleVert])
  else if env.layoutOk = false then
    (Except.error "failed to create pipeline layout!",
     [ShEv.created ShaderId.simpleVert, ShEv.created ShaderId.simpleFrag,
      ShEv.destroyed ShaderId.simpleFrag, ShEv.destroyed ShaderId.simpleVert])
  else if env.pipelineOk = false then
    (Except.error "failed to create graphics pipeline!",
     [ShEv.created ShaderId.simpleVert, ShEv.created ShaderId.simpleFrag,
      ShEv.destroyed ShaderId.simpleFrag, ShEv.destroyed ShaderId.simpleVert])
  else
    (Except.ok (),
     [ShEv.created ShaderId.simpleVert, ShEv.created ShaderId.simpleFrag,
      ShEv.destroyed ShaderId.simpleFrag, ShEv.destroyed ShaderId.simpleVert])

/-- `Application::CreateVertexPipeline`: the two shader modules are raw
`VkShaderModule` handles; `vkDestroyShaderModule` is called only at the end
of the normal path, so a `throw` from a later call leaves already-created
modules undestroyed. -/
def CreateVertexPipeline (env : PipelineEnv) : Except String Unit × List ShEv :=
  if env.vertShaderOk = false then
    (Except.error "failed to create shader module!", [])
  else if env.fragShaderOk = false then
    (Except.error "failed to create shader module!",
     [ShEv.created ShaderId.vertexVert])
  else if env.layoutOk = false then
    (Except.error "failed to create pipeline layout!",
     [ShEv.created ShaderId.vertexVert, ShEv.created ShaderId.vertexFrag])
  else if env.pipelineOk = false then
    (Except.error "failed to create graphics pipeline!",
     [ShEv.created ShaderId.vertexVert, ShEv.created ShaderId.vertexFrag])
  else
    (Except.ok (),
     [ShEv.created ShaderId.vertexVert, ShEv.created ShaderId.vertexFrag,
      ShEv.destroyed ShaderId.vertexFrag, ShEv.destroyed ShaderId.vertexVert])

/-- A trace is balanced when every module it creates it also destroys. -/
def balanced (tr : List ShEv) : Bool :=
  tr.all fun e =>
    match e with
    | ShEv.created m => tr.contains (ShEv.destroyed m)
    | ShEv.destroyed _ => true

end Shaders

namespace Pick

/-- One queue family as seen through
`vkGetPhysicalDeviceQueueFamilyProperties` (`VK_QUEUE_GRAPHICS_BIT`) and
`vkGetPhysicalDeviceSurfaceSupportKHR`. -/
structure QueueFamily where
  graphics : Bool
  present : Bool
deriving DecidableEq, Repr

/-- `struct QueueFamilyIndices` with the `UINT32_MAX` sentinel defaults. -/
structure QueueFamilyIndices where
  graphicsFamily : Nat := App.UINT32_MAX
  presentFamily : Nat := App.UINT32_MAX
deriving DecidableEq, Repr

/-- `QueueFamilyIndices::IsComplete`. -/
def QueueFamilyIndices.IsComplete (q : QueueFamilyIndices) : Bool :=
  q.graphicsFamily ≠ App.UINT32_MAX && q.presentFamily ≠ App.UINT32_MAX

/-- The loop body of `FindQueueFamilies`, indexed from `i`. -/
def findQueueFamiliesAux : List QueueFamily → Nat → QueueFamilyIndices → QueueFamilyIndices
  | [], _, ind => ind
  | qf :: rest, i, ind =>
    let ind1 := if qf.graphics then { ind with graphicsFamily := i } else ind
    let ind2 := if qf.present then { ind1 with presentFamily := i } else ind1
    if ind2.IsComplete then ind2 else findQueueFamiliesAux rest (i + 1) ind2

/-- `FindQueueFamilies(device, surface)` over the device's family list. -/
def FindQueueFamilies (families : List QueueFamily) : QueueFamilyIndices :=
  findQueueFamiliesAux families 0 {}

/-- `VkSurfaceFormatKHR` (format and color space as raw enum values). -/
structure SurfaceFormatKHR where
  format : Nat
  colorSpace : Nat
deriving DecidableEq, Repr

/-- What the Vulkan oracle reports about one physical device for the fixed
window surface: its queue families, its device extensions, and the
swapchain support details (surface formats and present modes). -/
structure PhysicalDevice where
  queueFamilies : List QueueFamily
  availableExtensions : List String
  formats : List SurfaceFormatKHR
  presentModes : List Nat
deriving DecidableEq, Repr

/-- `CheckDeviceExtension`: the required-extension set minus the available
ones is empty, i.e. every required extension is available. -/
def CheckDeviceExtension (dev : PhysicalDevice) (extensions : List String) : Bool :=
  extensions.all fun e => dev.availableExtensions.contains e

/-- `Application::IsDeviceSuitable`: complete queue families, supported
extensions, and (queried only then) non-empty surface formats and present
modes. -/
def IsDeviceSuitable (deviceExtensions : List String) (gpu : PhysicalDevice) : Bool :=
  let indices := FindQueueFamilies gpu.queueFamilies
  let extensionsSupported := CheckDeviceExtension gpu deviceExtensions
  let swapchainAdequate :=
    if extensionsSupported then
      !gpu.formats.isEmpty && !gpu.presentModes.isEmpty
    else false
  indices.IsComplete && extensionsSupported && swapchainAdequate

/-- `Application::PickPhysicalDevice`: throw when no device exists, pick the
first suitable device, throw when none is suitable. -/
def PickPhysicalDevice (devices : List PhysicalDevice) (deviceExtensions : List String) :
    Except String PhysicalDevice :=
  if devices.isEmpty then
    Except.error "failed to find GPUs with Vulkan support!"
  else
    match devices.find? (fun d => IsDeviceSuitable deviceExtensions d) with
    | some d => Except.ok d
    | none => Except.error "failed to find a suitable GPU!"

/-- `ChooseSwapSurfaceFormat`: first format matching the required format and
color space, else `availableFormats[0]`.  The result is an `Option`: `none`
is the out-of-bounds `availableFormats[0]` access on an empty list. -/
def ChooseSwapSurfaceFormat (availableFormats : List SurfaceFormatKHR)
    (requiredFormat requiredColorSpace : Nat) : Option SurfaceFormatKHR :=
  match availableFormats.find?
      (fun f => f.format = requiredFormat && f.colorSpace = requiredColorSpace) with
  | some f => some f
  | none => availableFormats.head?

/-- `VK_FORMAT_B8G8R8A8_SRGB`. -/
def VK_FORMAT_B8G8R8A8_SRGB : Nat := 50

/-- `VK_COLOR_SPACE_SRGB_NONLINEAR_KHR`. -/
def VK_COLOR_SPACE_SRGB_NONLINEAR_KHR : Nat := 0

/-- The `ChooseSwapSurfaceFormat` call made by
`Application::CreateSwapchainImpl` after re-querying the surface formats of
the selected device. -/
def swapchainSurfaceFormat (gpu : PhysicalDevice) : Option SurfaceFormatKHR :=
  ChooseSwapSurfaceFormat gpu.formats VK_FORMAT_B8G8R8A8_SRGB VK_COLOR_SPACE_SRGB_NONLINEAR_KHR

end Pick

/-- `VK_PRESENT_MODE_MAILBOX_KHR`. -/
def VK_PRESENT_MODE_MAILBOX_KHR : Nat := 1

/-- `VK_PRESENT_MODE_FIFO_KHR`. -/
def VK_PRESENT_MODE_FIFO_KHR : Nat := 2

/-- `ChooseSwapPresentMode` of `Sources/Application.cpp`: the first
available mode equal to the required one, else `VK_PRESENT_MODE_FIFO_KHR`. -/
def ChooseSwapPresentMode (availableModes : List Nat) (requiredMode : Nat) : Nat :=
  match availableModes with
  | [] => VK_PRESENT_MODE_FIFO_KHR
  | mode :: rest =>
    if mode = requiredMode then mode else ChooseSwapPresentMode rest requiredMode

/-- `ChooseSwapPresentMode` of the earlier snapshot `Source/Application.cpp`
(textually the same algorithm). -/
def ChooseSwapPresentModeV1 (availableModes : List Nat) (requiredMode : Nat) : Nat :=
  match availableModes with
  | [] => VK_PRESENT_MODE_FIFO_KHR
  | mode :: rest =>
    if mode = requiredMode then mode else ChooseSwapPresentModeV1 rest requiredMode

namespace IApp

/-- Events of `IApplication::Run`: the `Initialize()` attempt inside the
`try`, each `FrameRun()` call, and `Finalize()`. -/
inductive RunEvent where
  | initAttempt
  | frameRun
  | finalize
deriving DecidableEq, Repr

/-- The `while (m_Running) FrameRun();` loop.  `framesUntilExit` says during
which `FrameRun` call the app invokes `Exit()` (setting `m_Running` to
`false`); when `running` starts out `false` the body never runs. -/
def loop : Bool → Nat → List RunEvent
  | false, _ => []
  | true, 0 => [RunEvent.frameRun]
  | true, Nat.succ k => RunEvent.frameRun :: loop true k

/-- `IApplication::Run`: `try { Initialize(); m_Running = true; } catch
(const std::exception&) { m_Running = false; }`, then the frame loop, then
`Finalize()`.  The returned `Except` is the exception behaviour of `Run`
itself: the `catch` swallows the `Initialize` exception, so `Run` always
returns its event trace normally. -/
def Run (initResult : Except String Unit) (framesUntilExit : Nat) :
    Except String (List RunEvent) :=
  let running : Bool :=
    match initResult with
    | Except.ok _ => true
    | Except.error _ => false
  Except.ok (RunEvent.initAttempt :: (loop running framesUntilExit ++ [RunEvent.finalize]))

end IApp

namespace App

/-- Does a `VkResult` make the code set `m_WindowResized`
(`VK_ERROR_OUT_OF_DATE_KHR` or `VK_SUBOPTIMAL_KHR`)? -/
def reportsResize (r : VkResult) : Bool :=
  decide (r = VkResult.errorOutOfDate) || decide (r = VkResult.suboptimal)

/-- The events marking the per-frame steps whose order the spec fixes:
image acquisition, command recording, queue submission, presentation. -/
def isMarker : Ev → Bool
  | Ev.acquire _ => true
  | Ev.recordCommand _ => true
  | Ev.queueSubmit => true
  | Ev.queuePresent => true
  | _ => false

/-- Is this event the `CreateVertexBuffer` call? -/
def isCreateVertexBuffer : Ev → Bool
  | Ev.createVertexBuffer _ _ => true
  | _ => false

/-- Is this event the `CreateSyncObjects` call? -/
def isCreateSyncObjects : Ev → Bool
  | Ev.createSyncObjects _ => true
  | _ => false

/-- Is this command a `vkCmdDraw`? -/
def isDraw : Cmd → Bool
  | Cmd.draw _ _ _ _ => true
  | _ => false

/-- Did this iteration run all the way to a successful present (the only
path on which `m_CurSyncFrame` advances)? -/
def advanced (env : FrameEnv) : Bool :=
  !sizeBad env
    && decide (env.acquireResult = VkResult.success)
    && decide (env.submitResult = VkResult.success)
    && decide (env.presentResult = VkResult.success)

/-- One step of the resize-pending scanner: `resizeFlagSet` raises the
pending flag, `recreateSwapchain` lowers it, and an `acquire` while the flag
is pending is the forbidden outcome (`none`). -/
def pendingStep (p : Bool) (e : Ev) : Option Bool :=
  match e with
  | Ev.resizeFlagSet => some true
  | Ev.recreateSwapchain => some false
  | Ev.acquire _ => if p then none else some p
  | _ => some p

/-- Scan a trace with `pendingStep`, starting from pending state `p`:
`some q` is the pending state after the trace, `none` means some acquire was
attempted while a resize was pending. -/
def scanPending (p : Bool) : List Ev → Option Bool
  | [] => some p
  | e :: t =>
    match pendingStep p e with
    | none => none
    | some q => scanPending q t

/-- A trace never attempts an acquire while a reported resize is pending
(before `RecreateSwapchain` has run). -/
def acquireGuarded (p : Bool) (tr : List Ev) : Bool :=
  (scanPending p tr).isSome

/-- The application state after an iteration, `none` when the iteration
threw. -/
def postState (r : Except String AppState × List Ev) : Option AppState :=
  match r.1 with
  | Except.ok s => some s
  | Except.error _ => none

/-- A concrete state for counterexamples and witnesses: mid-run, ring size
2, current frame index 5. -/
def c3State : AppState :=
  { running := true
    windowResized := false
    curSyncFrame := 0
    syncObjCount := 2
    frameIndex := 5
    swapchain := 1
    nextHandle := 2
    res := ⟨1, 1, 1, 1, 1, 1, 1, 1, 1, 1, 1, 1, 1, 1⟩
    vertexData := [] }

/-- A concrete frame environment whose `vkAcquireNextImageKHR` returns
`VK_SUBOPTIMAL_KHR` with image index 0. -/
def c3Env : FrameEnv :=
  { quitEvent := false
    drawableWidth := 100
    drawableHeight := 100
    acquireResult := VkResult.suboptimal
    acquiredIndex := 0
    submitResult := VkResult.success
    presentResult := VkResult.success }

/-- A concrete frame environment in which every call succeeds. -/
def envOk : FrameEnv :=
  { quitEvent := false
    drawableWidth := 100
    drawableHeight := 100
    acquireResult := VkResult.success
    acquiredIndex := 0
    submitResult := VkResult.success
    presentResult := VkResult.success }

end App

namespace Pick

/-- A concrete suitable physical device: one graphics+present queue family,
the swapchain extension, one surface format, one present mode. -/
def demoGpu : PhysicalDevice :=
  { queueFamilies := [⟨true, true⟩]
    availableExtensions := ["VK_KHR_swapchain"]
    formats := [⟨VK_FORMAT_B8G8R8A8_SRGB, VK_COLOR_SPACE_SRGB_NONLINEAR_KHR⟩]
    presentModes := [2] }

end Pick

/-! ## Helper lemmas -/

theorem iapp_loop_no_finalize (b : Bool) (k : Nat) :
    IApp.RunEvent.finalize ∉ IApp.loop b k := by
  induction k with
  | zero => cases b <;> simp [IApp.loop]
  | succ k ih => cases b <;> simp_all [IApp.loop]

theorem pick_suitable (devices : List Pick.PhysicalDevice) (exts : List String)
    (gpu : Pick.PhysicalDevice)
    (h : Pick.PickPhysicalDevice devices exts = Except.ok gpu) :
    Pick.IsDeviceSuitable exts gpu = true := by
  unfold Pick.PickPhysicalDevice at h
  split at h
  · cases h
  · cases hf : devices.find? (fun d => Pick.IsDeviceSuitable exts d) with
    | none => rw [hf] at h; cases h
    | some d =>
      rw [hf] at h
      cases h
      exact List.find?_some hf

theorem suitable_formats_nonempty (exts : List String) (gpu : Pick.PhysicalDevice)
    (h : Pick.IsDeviceSuitable exts gpu = true) : gpu.formats ≠ [] := by
  intro hnil
  simp only [Pick.IsDeviceSuitable, Bool.and_eq_true] at h
  obtain ⟨⟨-, hext⟩, hadq⟩ := h
  rw [hext] at hadq
  simp [hnil] at hadq

theorem choose_format_isSome (l : List Pick.SurfaceFormatKHR) (rf rcs : Nat)
    (h : l ≠ []) : (Pick.ChooseSwapSurfaceFormat l rf rcs).isSome = true := by
  unfold Pick.ChooseSwapSurfaceFormat
  cases hf : l.find? (fun f => f.format = rf && f.colorSpace = rcs) with
  | some f => simp
  | none =>
    cases l with
    | nil => exact absurd rfl h
    | cons a t => simp

/-! ## Claim theorems -/

/-- C10: `IApplication::Run` calls `Finalize` exactly once on every
invocation, even when `Initialize` throws: the exception is caught, the
frame loop body is never entered because `m_Running` stays `false`,
`Finalize` still runs, and `Run` itself returns normally
(`Except.ok`) rather than propagating the exception. -/
theorem iapp_run_finalize_once (initResult : Except String Unit) (framesUntilExit : Nat) :
    ∃ tr, IApp.Run initResult framesUntilExit = Except.ok tr ∧
      tr.count IApp.RunEvent.finalize = 1 ∧
      (∀ msg, initResult = Except.error msg → IApp.RunEvent.frameRun ∉ tr) := by
  refine ⟨_, rfl, ?_, ?_⟩
  · have h0 :
        (IApp.loop
          (match initResult with
            | Except.ok _ => true
            | Except.error _ => false) framesUntilExit).count IApp.RunEvent.finalize = 0 :=
      List.count_eq_zero.mpr (iapp_loop_no_finalize _ _)
    simp [IApp.Run, List.count_cons, List.count_append, h0]
  · intro msg hmsg
    subst hmsg
    simp [IApp.Run, IApp.loop]

/-- C10 witness: instantiated at a throwing `Initialize` and 3 frames. -/
theorem iapp_run_finalize_once_witness :
    ∃ tr, IApp.Run (Except.error "failed to create instance!") 3 = Except.ok tr ∧
      tr.count IApp.RunEvent.finalize = 1 ∧
      (∀ msg, (Except.error "failed to create instance!" : Except String Unit)
          = Except.error msg → IApp.RunEvent.frameRun ∉ tr) :=
  iapp_run_finalize_once (Except.error "failed to create instance!") 3

/-- C7 counterexample: in `CreateVertexPipeline`, when
`vkCreatePipelineLayout` fails, the two already-created shader modules are
never destroyed (no RAII wrapper is used there), so the claim that every
shader module created during pipeline creation is destroyed on every
exception path is false. -/
theorem shader_raii_counterexample :
    Shaders.balanced (Shaders.CreateVertexPipeline ⟨true, true, false, true⟩).2 = false ∧
    Shaders.ShEv.created Shaders.ShaderId.vertexVert
        ∈ (Shaders.CreateVertexPipeline ⟨true, true, false, true⟩).2 ∧
    Shaders.ShEv.destroyed Shaders.ShaderId.vertexVert
        ∉ (Shaders.CreateVertexPipeline ⟨true, true, false, true⟩).2 := by
  decide

/-- C7 amended: every shader module created by `CreateSimplePipeline` is
destroyed before it finishes on the normal path and on every exception path
(the `ShaderModuleWrapper` RAII destructor runs); in `CreateVertexPipeline`
the created modules are destroyed exactly on the path where no later call
throws — when shader-module creation for the fragment stage, pipeline
layout creation or pipeline creation fails, the modules already created are
leaked. -/
theorem shader_raii_amended (env : Shaders.PipelineEnv) :
    Shaders.balanced (Shaders.CreateSimplePipeline env).2 = true ∧
    Shaders.balanced (Shaders.CreateVertexPipeline env).2 =
      (!env.vertShaderOk || (env.fragShaderOk && env.layoutOk && env.pipelineOk)) := by
  obtain ⟨v, f, l, p⟩ := env
  cases v <;> cases f <;> cases l <;> cases p <;> decide

/-- C9 counterexample: with required mode `VK_PRESENT_MODE_FIFO_KHR` and an
available list not containing it, `ChooseSwapPresentMode` returns the
required mode even though it does not occur in the list, so the claimed
"returns the required mode if and only if it occurs in the list" fails. -/
theorem present_mode_iff_counterexample :
    ChooseSwapPresentMode [VK_PRESENT_MODE_MAILBOX_KHR] VK_PRESENT_MODE_FIFO_KHR
        = VK_PRESENT_MODE_FIFO_KHR ∧
    VK_PRESENT_MODE_FIFO_KHR ∉ [VK_PRESENT_MODE_MAILBOX_KHR] ∧
    ¬(ChooseSwapPresentMode [VK_PRESENT_MODE_MAILBOX_KHR] VK_PRESENT_MODE_FIFO_KHR
          = VK_PRESENT_MODE_FIFO_KHR
        ↔ VK_PRESENT_MODE_FIFO_KHR ∈ [VK_PRESENT_MODE_MAILBOX_KHR]) := by
  decide

/-- C9 amended: `ChooseSwapPresentMode` returns the required mode whenever
it occurs in the list and `VK_PRESENT_MODE_FIFO_KHR` whenever it does not
(including for the empty list); consequently the claimed "if and only if"
holds whenever the required mode differs from `VK_PRESENT_MODE_FIFO_KHR`,
but when the required mode is FIFO itself the function returns it even if
absent.  The two snapshots' implementations are equal as functions. -/
theorem present_mode_amended (modes : List Nat) (required : Nat) :
    (required ∈ modes → ChooseSwapPresentMode modes required = required) ∧
    (required ∉ modes → ChooseSwapPresentMode modes required = VK_PRESENT_MODE_FIFO_KHR) ∧
    (required ≠ VK_PRESENT_MODE_FIFO_KHR →
      (ChooseSwapPresentMode modes required = required ↔ required ∈ modes)) ∧
    ChooseSwapPresentMode modes required = ChooseSwapPresentModeV1 modes required := by
  induction modes with
  | nil =>
    refine ⟨fun h => absurd h (List.not_mem_nil required), fun _ => rfl, fun hne => ?_, rfl⟩
    constructor
    · intro h
      exact absurd ((rfl : ChooseSwapPresentMode [] required
        = VK_PRESENT_MODE_FIFO_KHR) ▸ h).symm hne
    · intro h
      exact absurd h (List.not_mem_nil required)
  | cons m rest ih =>
    by_cases hm : m = required
    · subst hm
      refine ⟨fun _ => ?_, fun h => absurd (List.mem_cons_self m rest) h, fun hne => ?_, ?_⟩
      · simp [ChooseSwapPresentMode]
      · simp [ChooseSwapPresentMode]
      · simp [ChooseSwapPresentMode, ChooseSwapPresentModeV1]
    · have hstep : ChooseSwapPresentMode (m :: rest) required
          = ChooseSwapPresentMode rest required := by
        simp [ChooseSwapPresentMode, hm]
    
      have hstep1 : ChooseSwapPresentModeV1 (m :: rest) required
          = ChooseSwapPresentModeV1 rest required := by
        simp [ChooseSwapPresentModeV1, hm]
      have hmem : required ∈ m :: rest ↔ required ∈ rest := by
        simp [List.mem_cons]
        intro hr
        exact absurd hr.symm hm
      refine ⟨fun h => ?_, fun h => ?_, fun hne => ?_, ?_⟩
      · rw [hstep]; exact ih.1 (hmem.mp h)
      · rw [hstep]; exact ih.2.1 (fun hr => h (hmem.mpr hr))
      · rw [hstep, hmem]; exact ih.2.2.1 hne
      · rw [hstep, hstep1]; exact ih.2.2.2

/-- C8: `ChooseSwapSurfaceFormat` never performs its `availableFormats[0]`
fallback on an empty list for a device accepted by `PickPhysicalDevice`:
acceptance implies `IsDeviceSuitable`, which requires a non-empty surface
format list, and `CreateSwapchainImpl` re-queries the formats of that same
device and surface, so the lookup (`swapchainSurfaceFormat`) always yields a
format. -/
theorem surface_format_fallback_safe (devices : List Pick.PhysicalDevice)
    (exts : List String) (gpu : Pick.PhysicalDevice) (rf rcs : Nat)
    (h : Pick.PickPhysicalDevice devices exts = Except.ok gpu) :
    (Pick.ChooseSwapSurfaceFormat gpu.formats rf rcs).isSome = true ∧
    (Pick.swapchainSurfaceFormat gpu).isSome = true := by
  have hs := pick_suitable devices exts gpu h
  have hne := suitable_formats_nonempty exts gpu hs
  exact ⟨choose_format_isSome _ rf rcs hne, choose_format_isSome _ _ _ hne⟩

/-- C8 witness: a concrete one-device configuration accepted by
`PickPhysicalDevice`. -/
theorem surface_format_fallback_safe_witness :
    (Pick.ChooseSwapSurfaceFormat Pick.demoGpu.formats 50 0).isSome = true ∧
    (Pick.swapchainSurfaceFormat Pick.demoGpu).isSome = true :=
  surface_format_fallback_safe [Pick.demoGpu] ["VK_KHR_swapchain"] Pick.demoGpu 50 0 rfl

theorem RecreateSwapchain_eq (s : App.AppState) :
    App.RecreateSwapchain s =
      ({ s with
          swapchain := s.nextHandle,
          nextHandle := s.nextHandle + 1,
          res := { s.res with
            imageViewsGen := s.res.imageViewsGen + 1,
            renderPassGen := s.res.renderPassGen + 1,
            simplePipelineGen := s.res.simplePipelineGen + 1,
            vertexPipelineGen := s.res.vertexPipelineGen + 1,
            framebuffersGen := s.res.framebuffersGen + 1,
            commandBuffersGen := s.res.commandBuffersGen + 1 } },
       [App.Ev.deviceWaitIdle, App.Ev.cleanSwapchainResources,
        App.Ev.createSwapchainImpl s.swapchain, App.Ev.destroySwapchain s.swapchain,
        App.Ev.createImageViews, App.Ev.createSimpleRenderPass,
        App.Ev.createSimplePipeline, App.Ev.createVertexPipeline,
        App.Ev.createFramebuffers, App.Ev.createCommandBuffers]) := by
  simp [App.RecreateSwapchain, App.CleanSwapchainResources, App.CreateSwapchainImpl,
    App.CreateImageViews, App.CreateSimpleRenderPass, App.CreateSimplePipeline,
    App.CreateVertexPipeline, App.CreateFramebuffers, App.CreateCommandBuffers]

theorem resizeStep_eq_true (s : App.AppState) (h : s.windowResized = true) :
    App.resizeStep s =
      ({ s with
          windowResized := false,
          swapchain := s.nextHandle,
          nextHandle := s.nextHandle + 1,
          res := { s.res with
            imageViewsGen := s.res.imageViewsGen + 1,
            renderPassGen := s.res.renderPassGen + 1,
            simplePipelineGen := s.res.simplePipelineGen + 1,
            vertexPipelineGen := s.res.vertexPipelineGen + 1,
            framebuffersGen := s.res.framebuffersGen + 1,
            commandBuffersGen := s.res.commandBuffersGen + 1 } },
       [App.Ev.recreateSwapchain, App.Ev.deviceWaitIdle, App.Ev.cleanSwapchainResources,
        App.Ev.createSwapchainImpl s.swapchain, App.Ev.destroySwapchain s.swapchain,
        App.Ev.createImageViews, App.Ev.createSimpleRenderPass,
        App.Ev.createSimplePipeline, App.Ev.createVertexPipeline,
        App.Ev.createFramebuffers, App.Ev.createCommandBuffers]) := by
  simp [App.resizeStep, h, RecreateSwapchain_eq]

theorem resizeStep_eq_false (s : App.AppState) (h : s.windowResized = false) :
    App.resizeStep s = (s, []) := by
  simp [App.resizeStep, h]

theorem FrameUpdate_success (s : App.AppState) (env : App.FrameEnv)
    (h : env.acquireResult = App.VkResult.success) :
    App.FrameUpdate s env =
      ({ s with frameIndex := env.acquiredIndex }, true,
       [App.Ev.fenceWait, App.Ev.fenceReset, App.Ev.acquire s.curSyncFrame]) := by
  simp [App.FrameUpdate, h]

theorem FrameUpdate_suboptimal (s : App.AppState) (env : App.FrameEnv)
    (h : env.acquireResult = App.VkResult.suboptimal) :
    App.FrameUpdate s env =
      ({ s with windowResized := true, frameIndex := env.acquiredIndex }, false,
       [App.Ev.fenceWait, App.Ev.fenceReset, App.Ev.acquire s.curSyncFrame,
        App.Ev.resizeFlagSet]) := by
  simp [App.FrameUpdate, h]

theorem FrameUpdate_outOfDate (s : App.AppState) (env : App.FrameEnv)
    (h : env.acquireResult = App.VkResult.errorOutOfDate) :
    App.FrameUpdate s env =
      ({ s with windowResized := true }, false,
       [App.Ev.fenceWait, App.Ev.fenceReset, App.Ev.acquire s.curSyncFrame,
        App.Ev.resizeFlagSet]) := by
  simp [App.FrameUpdate, h]

theorem FrameUpdate_otherError (s : App.AppState) (env : App.FrameEnv)
    (h : env.acquireResult = App.VkResult.otherError) :
    App.FrameUpdate s env =
      (s, false, [App.Ev.fenceWait, App.Ev.fenceReset, App.Ev.acquire s.curSyncFrame]) := by
  simp [App.FrameUpdate, h]

theorem FramePresent_submitFail (s : App.AppState) (env : App.FrameEnv)
    (h : env.submitResult ≠ App.VkResult.success) :
    App.FramePresent s env =
      (Except.error "failed to submit draw command buffer!",
       [App.Ev.fenceReset, App.Ev.queueSubmit]) := by
  simp [App.FramePresent, h]

theorem FramePresent_report (s : App.AppState) (env : App.FrameEnv)
    (h : env.submitResult = App.VkResult.success)
    (h2 : App.reportsResize env.presentResult = true) :
    App.FramePresent s env =
      (Except.ok { s with windowResized := true },
       [App.Ev.fenceReset, App.Ev.queueSubmit, App.Ev.queuePresent,
        App.Ev.resizeFlagSet]) := by
  cases hp : env.presentResult <;> simp_all [App.FramePresent, App.reportsResize]

theorem FramePresent_success (s : App.AppState) (env : App.FrameEnv)
    (h : env.submitResult = App.VkResult.success)
    (h2 : env.presentResult = App.VkResult.success) :
    App.FramePresent s env =
      (Except.ok { s with curSyncFrame := (s.curSyncFrame + 1) % s.syncObjCount },
       [App.Ev.fenceReset, App.Ev.queueSubmit, App.Ev.queuePresent]) := by
  simp [App.FramePresent, h, h2]

theorem FramePresent_presentFail (s : App.AppState) (env : App.FrameEnv)
    (h : env.submitResult = App.VkResult.success)
    (h2 : env.presentResult = App.VkResult.otherError) :
    App.FramePresent s env =
      (Except.error "failed to present swap chain image!",
       [App.Ev.fenceReset, App.Ev.queueSubmit, App.Ev.queuePresent]) := by
  simp [App.FramePresent, h, h2]

theorem loopIter_scan (s : App.AppState) (env : App.FrameEnv) :
    App.scanPending s.windowResized (App.loopIter s env).2 =
      some (match (App.loopIter s env).1 with
            | Except.ok s1 => s1.windowResized
            | Except.error _ => false) := by
  cases hq : env.quitEvent <;> cases hsb : App.sizeBad env <;>
    cases hw : s.windowResized <;> cases hacq : env.acquireResult <;>
      cases hsub : env.submitResult <;> cases hpres : env.presentResult <;>
        simp_all [App.loopIter, resizeStep_eq_true, resizeStep_eq_false,
          FrameUpdate_success, FrameUpdate_suboptimal, FrameUpdate_outOfDate,
          FrameUpdate_otherError, FramePresent_submitFail, FramePresent_report,
          FramePresent_success, FramePresent_presentFail,
          App.scanPending, App.pendingStep, App.reportsResize]

theorem loopIter_markers (s : App.AppState) (env : App.FrameEnv) :
    (App.loopIter s env).2.filter App.isMarker =
      (if App.sizeBad env then []
       else if env.acquireResult = App.VkResult.success then
         if env.submitResult = App.VkResult.success then
           [App.Ev.acquire s.curSyncFrame, App.Ev.recordCommand env.acquiredIndex,
            App.Ev.queueSubmit, App.Ev.queuePresent]
         else
           [App.Ev.acquire s.curSyncFrame, App.Ev.recordCommand env.acquiredIndex,
            App.Ev.queueSubmit]
       else [App.Ev.acquire s.curSyncFrame]) := by
  cases hq : env.quitEvent <;> cases hsb : App.sizeBad env <;>
    cases hw : s.windowResized <;> cases hacq : env.acquireResult <;>
      cases hsub : env.submitResult <;> cases hpres : env.presentResult <;>
        simp_all [App.loopIter, resizeStep_eq_true, resizeStep_eq_false,
          FrameUpdate_success, FrameUpdate_suboptimal, FrameUpdate_outOfDate,
          FrameUpdate_otherError, FramePresent_submitFail, FramePresent_report,
          FramePresent_success, FramePresent_presentFail,
          App.isMarker, App.reportsResize]

set_option maxHeartbeats 1600000 in
theorem loopIter_ok_facts (s : App.AppState) (env : App.FrameEnv) (s1 : App.AppState)
    (h : (App.loopIter s env).1 = Except.ok s1) :
    s1.syncObjCount = s.syncObjCount ∧
    s1.vertexData = s.vertexData ∧
    s1.curSyncFrame =
      (if App.advanced env = true then (s.curSyncFrame + 1) % s.syncObjCount
       else s.curSyncFrame) ∧
    (App.sizeBad env = false → App.reportsResize env.acquireResult = true →
      s1.windowResized = true) ∧
    (App.sizeBad env = false → env.acquireResult = App.VkResult.success →
      env.submitResult = App.VkResult.success →
      App.reportsResize env.presentResult = true → s1.windowResized = true) := by
  cases hq : env.quitEvent <;> cases hsb : App.sizeBad env <;>
    cases hw : s.windowResized <;> cases hacq : env.acquireResult <;>
      cases hsub : env.submitResult <;> cases hpres : env.presentResult <;>
        simp_all [App.loopIter, App.advanced, resizeStep_eq_true, resizeStep_eq_false,
          FrameUpdate_success, FrameUpdate_suboptimal, FrameUpdate_outOfDate,
          FrameUpdate_otherError, FramePresent_submitFail, FramePresent_report,
          FramePresent_success, FramePresent_presentFail, App.reportsResize] <;>
        (try (subst h; simp))

set_option maxHeartbeats 1600000 in
theorem loopIter_no_init (s : App.AppState) (env : App.FrameEnv) :
    (App.loopIter s env).2.filter App.isCreateSyncObjects = [] ∧
    (App.loopIter s env).2.filter App.isCreateVertexBuffer = [] := by
  cases hq : env.quitEvent <;> cases hsb : App.sizeBad env <;>
    cases hw : s.windowResized <;> cases hacq : env.acquireResult <;>
      cases hsub : env.submitResult <;> cases hpres : env.presentResult <;>
        simp_all [App.loopIter, resizeStep_eq_true, resizeStep_eq_false,
          FrameUpdate_success, FrameUpdate_suboptimal, FrameUpdate_outOfDate,
          FrameUpdate_otherError, FramePresent_submitFail, FramePresent_report,
          FramePresent_success, FramePresent_presentFail, App.reportsResize,
          App.isCreateSyncObjects, App.isCreateVertexBuffer]

theorem loopIter_mem_recreate (s : App.AppState) (env : App.FrameEnv)
    (h : App.Ev.recreateSwapchain ∈ (App.loopIter s env).2) :
    s.windowResized = true ∧ App.sizeBad env = false := by
  cases hq : env.quitEvent <;> cases hsb : App.sizeBad env <;>
    cases hw : s.windowResized <;> cases hacq : env.acquireResult <;>
      cases hsub : env.submitResult <;> cases hpres : env.presentResult <;>
        simp_all [App.loopIter, resizeStep_eq_true, resizeStep_eq_false,
          FrameUpdate_success, FrameUpdate_suboptimal, FrameUpdate_outOfDate,
          FrameUpdate_otherError, FramePresent_submitFail, FramePresent_report,
          FramePresent_success, FramePresent_presentFail, App.reportsResize]

theorem scanPending_append (p : Bool) (a b : List App.Ev) :
    App.scanPending p (a ++ b) =
      (match App.scanPending p a with
       | none => none
       | some q => App.scanPending q b) := by
  induction a generalizing p with
  | nil => simp [App.scanPending]
  | cons e t ih =>
    cases hpe : App.pendingStep p e with
    | none => simp [App.scanPending, hpe]
    | some q => simp [App.scanPending, hpe, ih]

theorem run_nil (s : App.AppState) : App.run s [] = ⟨s, [s], []⟩ := rfl

theorem run_cons_notRunning (s : App.AppState) (env : App.FrameEnv)
    (rest : List App.FrameEnv) (h : s.running = false) :
    App.run s (env :: rest) = ⟨s, [s], []⟩ := by
  simp [App.run, h]

theorem run_cons_ok (s : App.AppState) (env : App.FrameEnv) (rest : List App.FrameEnv)
    (s1 : App.AppState) (tr : List App.Ev) (hr : s.running = true)
    (h : App.loopIter s env = (Except.ok s1, tr)) :
    App.run s (env :: rest) =
      ⟨(App.run s1 rest).final, s :: (App.run s1 rest).states,
       tr ++ (App.run s1 rest).trace⟩ := by
  simp [App.run, hr, h]

theorem run_cons_err (s : App.AppState) (env : App.FrameEnv) (rest : List App.FrameEnv)
    (msg : String) (tr : List App.Ev) (hr : s.running = true)
    (h : App.loopIter s env = (Except.error msg, tr)) :
    App.run s (env :: rest) = ⟨s, [s], tr⟩ := by
  simp [App.run, hr, h]

theorem run_guard_aux (envs : List App.FrameEnv) : ∀ s : App.AppState,
    (App.scanPending s.windowResized (App.run s envs).trace).isSome = true := by
  induction envs with
  | nil => intro s; simp [run_nil, App.scanPending]
  | cons env rest ih =>
    intro s
    cases hr : s.running with
    | false => simp [run_cons_notRunning s env rest hr, App.scanPending]
    | true =>
      cases hit : App.loopIter s env with
      | mk fst tr =>
        have hscan := loopIter_scan s env
        rw [hit] at hscan
        simp only [] at hscan
        cases fst with
        | ok s1 =>
          rw [run_cons_ok s env rest s1 tr hr hit]
          simp only [scanPending_append]
          rw [hscan]
          exact ih s1
        | error msg =>
          rw [run_cons_err s env rest msg tr hr hit]
          simp [hscan]

theorem run_states_inv (envs : List App.FrameEnv) : ∀ s : App.AppState,
    s.syncObjCount = 2 → s.curSyncFrame < 2 →
    ∀ t ∈ (App.run s envs).states, t.syncObjCount = 2 ∧ t.curSyncFrame < 2 := by
  induction envs with
  | nil =>
    intro s h1 h2 t ht
    rw [run_nil] at ht
    simp at ht
    subst ht
    exact ⟨h1, h2⟩
  | cons env rest ih =>
    intro s h1 h2 t ht
    cases hr : s.running with
    | false =>
      rw [run_cons_notRunning s env rest hr] at ht
      simp at ht
      subst ht
      exact ⟨h1, h2⟩
    | true =>
      cases hit : App.loopIter s env with
      | mk fst tr =>
        cases fst with
        | error msg =>
          rw [run_cons_err s env rest msg tr hr hit] at ht
          simp at ht
          subst ht
          exact ⟨h1, h2⟩
        | ok s1 =>
          rw [run_cons_ok s env rest s1 tr hr hit] at ht
          simp at ht
          rcases ht with rfl | ht
          · exact ⟨h1, h2⟩
          · have hf := loopIter_ok_facts s env s1 (by rw [hit])
            have hsync : s1.syncObjCount = 2 := by rw [hf.1, h1]
            have hcur : s1.curSyncFrame < 2 := by
              rw [hf.2.2.1]
              split
              · rw [h1]
                exact Nat.mod_lt _ (by decide)
              · exact h2
            exact ih s1 hsync hcur t ht

theorem run_final_vertexData (envs : List App.FrameEnv) : ∀ s : App.AppState,
    (App.run s envs).final.vertexData = s.vertexData := by
  induction envs with
  | nil => intro s; rfl
  | cons env rest ih =>
    intro s
    cases hr : s.running with
    | false => rw [run_cons_notRunning s env rest hr]
    | true =>
      cases hit : App.loopIter s env with
      | mk fst tr =>
        cases fst with
        | error msg => rw [run_cons_err s env rest msg tr hr hit]
        | ok s1 =>
          rw [run_cons_ok s env rest s1 tr hr hit]
          have hf := loopIter_ok_facts s env s1 (by rw [hit])
          show (App.run s1 rest).final.vertexData = s.vertexData
          rw [ih s1]
          exact hf.2.1

theorem run_no_init (envs : List App.FrameEnv) : ∀ s : App.AppState,
    (App.run s envs).trace.filter App.isCreateSyncObjects = [] ∧
    (App.run s envs).trace.filter App.isCreateVertexBuffer = [] := by
  induction envs with
  | nil => intro s; simp [run_nil]
  | cons env rest ih =>
    intro s
    cases hr : s.running with
    | false => simp [run_cons_notRunning s env rest hr]
    | true =>
      cases hit : App.loopIter s env with
      | mk fst tr =>
        have hno := loopIter_no_init s env
        rw [hit] at hno
        simp only [] at hno
        cases fst with
        | error msg =>
          rw [run_cons_err s env rest msg tr hr hit]
          exact hno
        | ok s1 =>
          rw [run_cons_ok s env rest s1 tr hr hit]
          simp only [List.filter_append]
          simp [hno.1, hno.2, (ih s1).1, (ih s1).2]

theorem InitVulkan_trace : (App.InitVulkan App.initState).2 =
    [App.Ev.createInstance, App.Ev.createSurface, App.Ev.pickPhysicalDevice,
     App.Ev.createDevice, App.Ev.createCommandPool, App.Ev.createVertexBuffer 20 3,
     App.Ev.createSwapchainImpl 0, App.Ev.createImageViews, App.Ev.createSimpleRenderPass,
     App.Ev.createSimplePipeline, App.Ev.createVertexPipeline, App.Ev.createFramebuffers,
     App.Ev.createCommandBuffers, App.Ev.createSyncObjects 2] := by
  rfl

/-- C1: in every iteration of the main loop the per-frame steps occur in the
fixed order acquire (`FrameUpdate`) → `RecordCommand` → submit and present
(`FramePresent`); recording and presenting happen only when `FrameUpdate`
returned `true`, i.e. `vkAcquireNextImageKHR` returned `VK_SUCCESS` (first
conjunct: the marker subtrace of an iteration); whenever acquire or present
reports `VK_ERROR_OUT_OF_DATE_KHR` or `VK_SUBOPTIMAL_KHR` the resize flag is
set at the end of the iteration (second and third conjuncts), and over a
whole run, `RecreateSwapchain` runs before any later acquire is attempted
while a resize is pending (fourth conjunct, the scan over the run trace). -/
theorem mainLoop_frame_order (s : App.AppState) (env : App.FrameEnv)
    (envs : List App.FrameEnv) :
    ((App.loopIter s env).2.filter App.isMarker =
      (if App.sizeBad env then []
       else if env.acquireResult = App.VkResult.success then
         if env.submitResult = App.VkResult.success then
           [App.Ev.acquire s.curSyncFrame, App.Ev.recordCommand env.acquiredIndex,
            App.Ev.queueSubmit, App.Ev.queuePresent]
         else
           [App.Ev.acquire s.curSyncFrame, App.Ev.recordCommand env.acquiredIndex,
            App.Ev.queueSubmit]
       else [App.Ev.acquire s.curSyncFrame])) ∧
    (∀ s1, (App.loopIter s env).1 = Except.ok s1 →
      App.sizeBad env = false → App.reportsResize env.acquireResult = true →
      s1.windowResized = true) ∧
    (∀ s1, (App.loopIter s env).1 = Except.ok s1 →
      App.sizeBad env = false → env.acquireResult = App.VkResult.success →
      env.submitResult = App.VkResult.success →
      App.reportsResize env.presentResult = true → s1.windowResized = true) ∧
    App.acquireGuarded s.windowResized (App.run s envs).trace = true := by
  refine ⟨loopIter_markers s env, ?_, ?_, ?_⟩
  · intro s1 h hs hr
    exact (loopIter_ok_facts s env s1 h).2.2.2.1 hs hr
  · intro s1 h hs ha hsub hr
    exact (loopIter_ok_facts s env s1 h).2.2.2.2 hs ha hsub hr
  · exact run_guard_aux envs s

/-- C2: the frame-in-flight ring has fixed size 2: over any run of the
program, `CreateSyncObjects` is called exactly once, with `frameNum = 2`
(first conjunct); every state reached by the main loop started from the
initialized state has `m_SyncObjCount = 2` and `m_CurSyncFrame` strictly
below it (second conjunct); and a loop iteration never changes
`m_SyncObjCount` and changes `m_CurSyncFrame` only to
`(m_CurSyncFrame + 1) % m_SyncObjCount`, exactly when the iteration reached
a successful present (third conjunct). -/
theorem sync_ring_invariant (envs : List App.FrameEnv) (s : App.AppState)
    (env : App.FrameEnv) :
    ((App.Run envs).2.filter App.isCreateSyncObjects = [App.Ev.createSyncObjects 2]) ∧
    (∀ t ∈ (App.run App.mainLoopState envs).states,
      t.syncObjCount = 2 ∧ t.curSyncFrame < t.syncObjCount) ∧
    (∀ s1, (App.loopIter s env).1 = Except.ok s1 →
      s1.syncObjCount = s.syncObjCount ∧
      s1.curSyncFrame =
        (if App.advanced env = true then (s.curSyncFrame + 1) % s.syncObjCount
         else s.curSyncFrame)) := by
  refine ⟨?_, ?_, ?_⟩
  · have hrn := (run_no_init envs App.mainLoopState).1
    simp [App.Run, List.filter_append, hrn, InitVulkan_trace, App.isCreateSyncObjects]
  · intro t ht
    have h := run_states_inv envs App.mainLoopState (by decide) (by decide) t ht
    exact ⟨h.1, by rw [h.1]; exact h.2⟩
  · intro s1 h
    exact ⟨(loopIter_ok_facts s env s1 h).1, (loopIter_ok_facts s env s1 h).2.2.1⟩

/-- C3 counterexample: when `vkAcquireNextImageKHR` returns
`VK_SUBOPTIMAL_KHR` (not `VK_SUCCESS`), the frame is skipped but the driver
has written the acquired image index into `m_FrameIndex`, so state beyond
the in-flight fence and the resize flag is modified: from a state with
`m_FrameIndex = 5`, the iteration ends with `m_FrameIndex = 0`. -/
theorem frame_skip_counterexample :
    App.c3Env.acquireResult ≠ App.VkResult.success ∧
    App.postState (App.loopIter App.c3State App.c3Env) =
      some { App.c3State with windowResized := true, frameIndex := 0 } ∧
    App.c3State.frameIndex = 5 := by
  decide

/-- C3 amended: when image acquisition does not return `VK_SUCCESS`, the
rest of the frame is skipped without retry — `RecordCommand` and
`FramePresent` do not run, no queue submission or presentation occurs — and
apart from the in-flight fence reset, possibly setting the resize flag, and
`m_FrameIndex` being overwritten with the acquired index when the result is
`VK_SUBOPTIMAL_KHR`, no other application state is modified before the loop
proceeds to the next iteration. -/
theorem frame_skip_amended (s : App.AppState) (env : App.FrameEnv)
    (hw : s.windowResized = false) (hq : env.quitEvent = false)
    (hsb : App.sizeBad env = false)
    (ha : env.acquireResult ≠ App.VkResult.success) :
    App.loopIter s env =
      (Except.ok { s with
          windowResized := App.reportsResize env.acquireResult,
          frameIndex :=
            if env.acquireResult = App.VkResult.suboptimal then env.acquiredIndex
            else s.frameIndex },
       [App.Ev.fenceWait, App.Ev.fenceReset, App.Ev.acquire s.curSyncFrame]
         ++ (if App.reportsResize env.acquireResult then [App.Ev.resizeFlagSet] else [])) ∧
    (App.loopIter s env).2.filter App.isMarker = [App.Ev.acquire s.curSyncFrame] := by
  obtain ⟨r, w, c, y, f, sw, nh, rs, vd⟩ := s
  cases hacq : env.acquireResult <;>
    simp_all [App.loopIter, resizeStep_eq_false, FrameUpdate_suboptimal,
      FrameUpdate_outOfDate, FrameUpdate_otherError, App.reportsResize, App.isMarker]

/-- C3 amended witness: the concrete suboptimal-acquire frame. -/
theorem frame_skip_amended_witness :
    App.loopIter App.c3State App.c3Env =
      (Except.ok { App.c3State with
          windowResized := App.reportsResize App.c3Env.acquireResult,
          frameIndex :=
            if App.c3Env.acquireResult = App.VkResult.suboptimal then App.c3Env.acquiredIndex
            else App.c3State.frameIndex },
       [App.Ev.fenceWait, App.Ev.fenceReset, App.Ev.acquire App.c3State.curSyncFrame]
         ++ (if App.reportsResize App.c3Env.acquireResult then [App.Ev.resizeFlagSet]
             else [])) ∧
    (App.loopIter App.c3State App.c3Env).2.filter App.isMarker
      = [App.Ev.acquire App.c3State.curSyncFrame] :=
  frame_skip_amended App.c3State App.c3Env (by decide) (by decide) (by decide) (by decide)

/-- C4: `RecreateSwapchain` replaces only the swapchain-dependent resources:
its trace waits for the device, destroys the dependent resources, creates
the new swapchain passing the old handle as `oldSwapchain`, destroys the old
handle, and re-creates image views, render pass, both pipelines,
framebuffers and command buffers (first conjunct); the instance, surface,
physical device, logical device, queues, command pool, vertex buffer and
sync objects are left unchanged (second conjunct); it runs only when the
resize flag is set and the drawable size is positive (third conjunct); and
the flag is cleared by the resize step (fourth and fifth conjuncts). -/
theorem recreate_swapchain_isolated (s : App.AppState) (env : App.FrameEnv) :
    (App.RecreateSwapchain s =
      ({ s with
          swapchain := s.nextHandle,
          nextHandle := s.nextHandle + 1,
          res := { s.res with
            imageViewsGen := s.res.imageViewsGen + 1,
            renderPassGen := s.res.renderPassGen + 1,
            simplePipelineGen := s.res.simplePipelineGen + 1,
            vertexPipelineGen := s.res.vertexPipelineGen + 1,
            framebuffersGen := s.res.framebuffersGen + 1,
            commandBuffersGen := s.res.commandBuffersGen + 1 } },
       [App.Ev.deviceWaitIdle, App.Ev.cleanSwapchainResources,
        App.Ev.createSwapchainImpl s.swapchain, App.Ev.destroySwapchain s.swapchain,
        App.Ev.createImageViews, App.Ev.createSimpleRenderPass,
        App.Ev.createSimplePipeline, App.Ev.createVertexPipeline,
        App.Ev.createFramebuffers, App.Ev.createCommandBuffers])) ∧
    ((App.RecreateSwapchain s).1.res.instanceGen = s.res.instanceGen ∧
     (App.RecreateSwapchain s).1.res.surfaceGen = s.res.surfaceGen ∧
     (App.RecreateSwapchain s).1.res.gpuGen = s.res.gpuGen ∧
     (App.RecreateSwapchain s).1.res.deviceGen = s.res.deviceGen ∧
     (App.RecreateSwapchain s).1.res.queuesGen = s.res.queuesGen ∧
     (App.RecreateSwapchain s).1.res.commandPoolGen = s.res.commandPoolGen ∧
     (App.RecreateSwapchain s).1.res.vertexBufferGen = s.res.vertexBufferGen ∧
     (App.RecreateSwapchain s).1.res.syncGen = s.res.syncGen ∧
     (App.RecreateSwapchain s).1.syncObjCount = s.syncObjCount ∧
     (App.RecreateSwapchain s).1.curSyncFrame = s.curSyncFrame ∧
     (App.RecreateSwapchain s).1.vertexData = s.vertexData) ∧
    (App.Ev.recreateSwapchain ∈ (App.loopIter s env).2 →
      s.windowResized = true ∧ App.sizeBad env = false) ∧
    (App.resizeStep s).1.windowResized = false ∧
    ((App.resizeStep s).2 ≠ [] ↔ s.windowResized = true) := by
  refine ⟨RecreateSwapchain_eq s, ?_, loopIter_mem_recreate s env, ?_, ?_⟩
  · simp [RecreateSwapchain_eq]
  · cases hw : s.windowResized <;>
      simp [resizeStep_eq_true, resizeStep_eq_false, hw]
  · cases hw : s.windowResized <;>
      simp [resizeStep_eq_true, resizeStep_eq_false, hw]

/-- C5: the rendered geometry is a hardcoded triangle: every command buffer
recorded by `RecordCommand` issues exactly one draw, `vkCmdDraw(cb, 3, 1, 0,
0)` (first conjunct), with the vertex buffer bound before the draw (second
conjunct); the fixed vertex list has exactly 3 vertices (third conjunct);
over any run of the program the vertex buffer is created and filled exactly
once, during initialization, with stride `sizeof(Vertex) = 20` and count 3
(fourth conjunct), holding exactly that list (fifth conjunct). -/
theorem triangle_vertex_draw (imageIndex : Nat) (envs : List App.FrameEnv) :
    ((App.RecordCommand imageIndex).filter App.isDraw = [App.Cmd.draw 3 1 0 0]) ∧
    (∃ pre mid post, App.RecordCommand imageIndex =
        pre ++ [App.Cmd.bindVertexBuffers 0 1 [App.BufId.vertexBuffer] [0]] ++ mid
          ++ [App.Cmd.draw 3 1 0 0] ++ post) ∧
    App.initVertices.length = 3 ∧
    ((App.Run envs).2.filter App.isCreateVertexBuffer = [App.Ev.createVertexBuffer 20 3]) ∧
    (App.Run envs).1.vertexData = App.initVertices := by
  refine ⟨?_, ?_, by decide, ?_, ?_⟩
  · simp [App.RecordCommand, App.isDraw]
  · exact ⟨[App.Cmd.resetCommandBuffer, App.Cmd.beginCommandBuffer],
      [App.Cmd.beginRenderPass imageIndex, App.Cmd.bindPipeline],
      [App.Cmd.imguiRenderDrawData, App.Cmd.endRenderPass, App.Cmd.endCommandBuffer], rfl⟩
  · have hrn := (run_no_init envs App.mainLoopState).2
    simp [App.Run, List.filter_append, hrn, InitVulkan_trace, App.isCreateVertexBuffer]
  · show (App.run App.mainLoopState envs).final.vertexData = App.initVertices
    rw [run_final_vertexData]
    rfl

/-- C6: `Application::Run` executes the initialization stages in the stated
order on every invocation: the full trace is the fixed initialization prefix
(window creation, instance, surface, physical device, logical device,
command pool, vertex buffer, swapchain with image views, render pass,
pipelines, framebuffers and command buffers, sync objects, then ImGui),
followed by the frame loop's trace, with cleanup last (first conjunct); the
claimed stage order is a subsequence of that prefix (second conjunct). -/
theorem run_stage_order (envs : List App.FrameEnv) :
    ((App.Run envs).2 =
      [App.Ev.initProperty, App.Ev.initWindow, App.Ev.createInstance, App.Ev.createSurface,
       App.Ev.pickPhysicalDevice, App.Ev.createDevice, App.Ev.createCommandPool,
       App.Ev.createVertexBuffer 20 3, App.Ev.createSwapchainImpl 0, App.Ev.createImageViews,
       App.Ev.createSimpleRenderPass, App.Ev.createSimplePipeline, App.Ev.createVertexPipeline,
       App.Ev.createFramebuffers, App.Ev.createCommandBuffers, App.Ev.createSyncObjects 2,
       App.Ev.initImGui]
        ++ (App.run App.mainLoopState envs).trace
        ++ [App.Ev.deviceWaitIdle, App.Ev.cleanup]) ∧
    List.Sublist
      [App.Ev.initWindow, App.Ev.createInstance, App.Ev.createSurface,
       App.Ev.pickPhysicalDevice, App.Ev.createDevice, App.Ev.createSwapchainImpl 0,
       App.Ev.createSimpleRenderPass, App.Ev.createSimplePipeline,
       App.Ev.createVertexPipeline, App.Ev.createFramebuffers, App.Ev.createCommandBuffers,
       App.Ev.initImGui]
      [App.Ev.initProperty, App.Ev.initWindow, App.Ev.createInstance, App.Ev.createSurface,
       App.Ev.pickPhysicalDevice, App.Ev.createDevice, App.Ev.createCommandPool,
       App.Ev.createVertexBuffer 20 3, App.Ev.createSwapchainImpl 0, App.Ev.createImageViews,
       App.Ev.createSimpleRenderPass, App.Ev.createSimplePipeline, App.Ev.createVertexPipeline,
       App.Ev.createFramebuffers, App.Ev.createCommandBuffers, App.Ev.createSyncObjects 2,
       App.Ev.initImGui] := by
  constructor
  · simp [App.Run, InitVulkan_trace]
  · decide
